import Mathlib

namespace Workshop

/-!
Verification of the nilearn-PFC-Workshop repository.

The repository consists of two Jupyter notebooks
(`Notebooks/intro-to-nilearn.ipynb` and
`Notebooks/classification-example.ipynb`) that call into the external
libraries nilearn, numpy, scikit-learn and matplotlib.  This file gives a
shallow embedding of the notebook code in two layers:

1. a semantic model of the data the notebooks manipulate (time series,
   connectivity matrices, accuracy scores, the numpy helpers the
   notebooks call), translated from the notebook statements; the
   internals of the wrapped libraries are not part of this repository,
   so library calls are modelled by their documented contracts, and each
   such definition carries a doc comment saying what is modelled;

2. a syntactic embedding of the two notebooks as lists of Python
   statements, transcribed cell by cell and line by line from the
   notebook sources, together with an exception semantics, loop counts,
   and the pipeline-stage trace used by the temporal claims.
-/

/-! ## Rational-valued helpers shared by the semantic model -/

/-- Arithmetic mean of a list of rationals, as computed by `np.mean`
(division by zero yields zero in Lean, a case the notebooks never hit). -/
def npMean (l : List ℚ) : ℚ := l.sum / l.length

/-- `sklearn.metrics.accuracy_score`: the fraction of positions where the
predicted label equals the true label. -/
def accuracy_score (yTrue yPred : List Nat) : ℚ :=
  (((yTrue.zip yPred).map (fun p => if p.1 = p.2 then (1 : ℚ) else 0)).sum) / yTrue.length

/-! ## `np.unique(groups, return_inverse=True)`

`np.unique` with `return_inverse=True` returns the sorted list of distinct
values of its argument together with, for each input element, the index of
that element in the sorted distinct list. -/

/-- Lexicographic strict order on character lists, by code point, as
numpy compares strings. -/
def charListLtB : List Char → List Char → Bool
  | _, [] => false
  | [], _ :: _ => true
  | a :: s, b :: t =>
    Nat.blt a.toNat b.toNat || (Nat.beq a.toNat b.toNat && charListLtB s t)

/-- Lexicographic strict order on strings. -/
def strLtB (a b : String) : Bool := charListLtB a.data b.data

/-- Boolean string order used to model the sort performed by `np.unique`. -/
def strLeB (a b : String) : Bool := !(strLtB b a)

/-- Insert a string into a (sorted) list, keeping the order. -/
def insertSorted (a : String) : List String → List String
  | [] => [a]
  | b :: t => if strLeB a b then a :: b :: t else b :: insertSorted a t

/-- Insertion sort on strings. -/
def sortStr (l : List String) : List String := l.foldr insertSorted []

/-- The sorted distinct values returned by `np.unique`. -/
def npUniqueVals (l : List String) : List String := (sortStr l).dedup

/-- The inverse-index array returned by `np.unique(_, return_inverse=True)`:
for each element of the input, its index in the sorted distinct values. -/
def npUniqueInv (l : List String) : List Nat :=
  l.map (fun x => (npUniqueVals l).indexOf x)

/-! ## Atlas, scans, masker and connectivity

The notebooks call `datasets.fetch_atlas_msdl`, `datasets.fetch_development_fmri`,
`maskers.NiftiMapsMasker(...).fit()` / `maskers.MultiNiftiMapsMasker(...).fit()`,
`masker.transform(...)` and `ConnectivityMeasure(...).fit_transform(...)`.
These functions live in the wrapped library, not in this repository, so
they are modelled here by their documented contracts. -/

/-- A probabilistic atlas as returned by `datasets.fetch_atlas_msdl`: the
model keeps the field the notebooks read, `region_coords`, one spatial
coordinate per region of interest. -/
structure Atlas where
  region_coords : List (ℚ × ℚ × ℚ)

/-- `n_regions = len(msdl_atlas.region_coords)` (intro notebook). -/
def Atlas.n_regions (a : Atlas) : Nat := a.region_coords.length

/-- One functional scan of the development dataset.  Modelled from the spec:
the masker reduces the high-dimensional volumetric time series to one value
per ROI per time point, so the model records the number of time points of
the scan and, folding the opaque volumetric data, detrending, filtering and
confound regression of the wrapped library into one function, the value the
fitted masker extracts for each (time point, region) pair. -/
structure Scan where
  n_timepoints : Nat
  roiSignal : Nat → Nat → ℚ

/-- Modelled from the spec: `masker.transform` returns, for one scan, a
samples-by-features array with one row per time point and one column per
atlas region. -/
def maskerTransform (atlas : Atlas) (s : Scan) : List (List ℚ) :=
  (List.range s.n_timepoints).map
    (fun t => (List.range atlas.n_regions).map (fun r => s.roiSignal t r))

/-- Column `j` of a samples-by-features array. -/
def colQ (X : List (List ℚ)) (j : Nat) : List ℚ := X.map (fun row => row.getD j 0)

/-- The number of features (regions) of a samples-by-features array. -/
def n_features (X : List (List ℚ)) : Nat := (X.headD []).length

/-- Covariance of two signal columns. -/
def covQ (x y : List ℚ) : ℚ :=
  npMean ((x.zip y).map (fun p => (p.1 - npMean x) * (p.2 - npMean y)))

/-- Modelled from the spec: a connectivity matrix is a matrix of pairwise
statistical relationships between the ROI time series, one entry per ordered
pair of regions.  The exact statistic of each `ConnectivityMeasure` kind
(Pearson correlation, partial correlation, tangent-space embedding) is
internal to the wrapped library; the model uses the covariance of the two
columns, which preserves the pairwise regions-by-regions structure the
claims are about. -/
def connectivityMatrix (X : List (List ℚ)) : List (List ℚ) :=
  (List.range (n_features X)).map
    (fun i => (List.range (n_features X)).map (fun j => covQ (colQ X i) (colQ X j)))

/-- `ConnectivityMeasure.fit_transform` on a list of subjects: one
connectivity matrix per subject. -/
def connectivity_fit_transform (subjects : List (List (List ℚ))) : List (List (List ℚ)) :=
  subjects.map connectivityMatrix

/-! ## The development dataset and the classification-notebook data flow -/

/-- The development fMRI dataset as returned by
`datasets.fetch_development_fmri(n_subjects=30)`: the `Child_Adult` column
of the phenotypic table and the functional scans, listed in the same
participant order.  The confound files, which the notebook passes to
`masker.transform` alongside the scans, only alter the extracted signal
values and are folded into `Scan.roiSignal`. -/
structure Dataset where
  phenotypic : List String
  func : List Scan

/-- The (age group, scan) pairs in pooled order: the classification
notebook indexes `func` by the boolean masks
`phenotypic == adult` / `phenotypic == child` masks and then sets
`pooled_subjects = adults + children`, adults first. -/
def pooledPairs (d : Dataset) : List (String × Scan) :=
  (d.phenotypic.zip d.func).filter (fun p => p.1 == "adult")
    ++ (d.phenotypic.zip d.func).filter (fun p => p.1 == "child")

/-- The pooled extracted time series: `pooled_subjects = adults + children`
where `adults` and `children` are `masker.transform` outputs. -/
def pooled_subjects (atlas : Atlas) (d : Dataset) : List (List (List ℚ)) :=
  (pooledPairs d).map (fun p => maskerTransform atlas p.2)

/-- The age group of the participant behind each pooled row, in pooled
(adults-then-children) order. -/
def pooledGroups (d : Dataset) : List String := (pooledPairs d).map Prod.fst

/-- `groups = list(development_dataset.phenotypic[Child_Adult])`:
the labels in the phenotypic order of the dataset. -/
def groupsOf (d : Dataset) : List String := d.phenotypic

/-- `_, classes = np.unique(groups, return_inverse=True)`. -/
def classesOf (d : Dataset) : List Nat := npUniqueInv (groupsOf d)

/-! ## `np.fill_diagonal(correlation_matrix, 0)` -/

/-- Helper for `np_fill_diagonal`: write a zero at column `k + i` of the
`i`-th remaining row. -/
def fill_diagonal_from (k : Nat) : List (List ℚ) → List (List ℚ)
  | [] => []
  | r :: t => r.set k 0 :: fill_diagonal_from (k + 1) t

/-- `np.fill_diagonal(M, 0)`: zero every diagonal entry of `M` in place,
leaving all off-diagonal entries untouched. -/
def np_fill_diagonal (M : List (List ℚ)) : List (List ℚ) := fill_diagonal_from 0 M

/-! ## The intro-notebook connectome cells (cells around
`np.fill_diagonal` and the subsequent plotting calls) -/

/-- `correlation_matrix = correlation_measure.fit_transform([roi_time_series])[0]`. -/
def intro_correlation_matrix (ts : List (List ℚ)) : List (List ℚ) :=
  (connectivity_fit_transform [ts]).headD []

/-- The value of the variable `correlation_matrix` after the statement
`np.fill_diagonal(correlation_matrix, 0)` has mutated it. -/
def intro_filled_matrix (ts : List (List ℚ)) : List (List ℚ) :=
  np_fill_diagonal (intro_correlation_matrix ts)

/-- The matrix argument the intro notebook passes to `plotting.plot_matrix`
in the cell after the `np.fill_diagonal` statement. -/
def intro_plot_matrix_arg (ts : List (List ℚ)) : List (List ℚ) :=
  intro_filled_matrix ts

/-- The matrix argument the intro notebook passes to
`plotting.view_connectome`. -/
def intro_view_connectome_arg (ts : List (List ℚ)) : List (List ℚ) :=
  intro_filled_matrix ts

/-! ## Syntactic embedding of the notebook code

Each notebook is transcribed, code cell by code cell and line by line, as
a list of Python statements.  A statement is either a notebook magic,
an import, a help query, the guarded nilearn import (a `try` block whose
only statement is `import nilearn` and whose handler runs
`!pip install nilearn` and re-imports), a single call into a library
function or method (with the variables it writes and reads and, when it
is one of the pipeline operations of the spec, its pipeline stage), a
plain-Python assignment or attribute access, an `assert`, a `for` loop,
or a list comprehension.  The single source line
`classifier.predict(connectivity.transform(pooled_subjects[test]))`
contains two library calls and is transcribed as the two calls in
evaluation order. -/

/-- The pipeline stages named by the spec: fetch data, build and fit the
masker, transform scans into per-region time series, compute a
connectivity matrix, visualize a connectivity matrix, classify. -/
inductive Stage where
  | fetch
  | buildMasker
  | transformTS
  | connectivity
  | visualizeConn
  | classify
deriving DecidableEq, Repr

/-- A Python statement of a notebook code cell. -/
inductive PyStmt where
  | magic (cmd : String)
  | importMod (mods : List String)
  | helpQuery (target : String)
  | tryImportInstall (m : String)
  | libCall (stage : Option Stage) (writes : List String) (reads : List String) (fn : String)
  | assignPure (writes : List String) (reads : List String) (descr : String)
  | assertStmt (key : String) (reads : List String)
  | forLoop (vars : String) (iter : String) (body : List PyStmt)
  | listComp (writes : List String) (reads : List String) (iter : String)

/-- `Notebooks/intro-to-nilearn.ipynb`, code cells in order. -/
def introNb : List PyStmt := [
  .magic "matplotlib inline",
  .tryImportInstall "nilearn",
  .assignPure [] ["nilearn"] "nilearn.__version__",
  .importMod ["nilearn.datasets"],
  .libCall none [] ["MNI152_FILE_PATH"] "print",
  .importMod ["nilearn.plotting"],
  .libCall none [] ["MNI152_FILE_PATH"] "plotting.plot_img",
  .importMod ["nilearn.datasets"],
  .libCall none ["mni_template_3mm"] [] "datasets.load_mni152_template",
  .assignPure [] ["mni_template_3mm"] "mni_template_3mm",
  .importMod ["nilearn.image"],
  .helpQuery "image.smooth_img",
  .libCall none ["smooth_anat_img"] ["mni_template_3mm"] "image.smooth_img",
  .assignPure [] ["smooth_anat_img"] "smooth_anat_img.shape",
  .libCall none [] ["smooth_anat_img"] "plotting.plot_img",
  .importMod ["pandas"],
  .libCall none ["data"] [] "pd.read_csv",
  .libCall none [] ["data"] "data.head",
  .importMod ["nilearn.datasets"],
  .libCall (some .fetch) ["development_dataset"] [] "datasets.fetch_development_fmri",
  .libCall none [] ["development_dataset"] "development_dataset.keys",
  .libCall none [] ["development_dataset"] "len",
  .importMod ["nilearn.image"],
  .libCall none ["img"] ["development_dataset"] "image.load_img",
  .assignPure [] ["img"] "img.shape",
  .importMod ["nilearn.plotting"],
  .libCall none ["mean_image"] ["img"] "image.mean_img",
  .libCall none [] ["mean_image"] "plotting.view_img",
  .importMod ["IPython.display"],
  .libCall none [] [] "Image",
  .importMod ["numpy"],
  .libCall (some .fetch) ["msdl_atlas"] [] "datasets.fetch_atlas_msdl",
  .libCall none [] ["msdl_atlas"] "msdl_atlas.keys",
  .assignPure ["msdl_coords"] ["msdl_atlas"] "msdl_coords = msdl_atlas.region_coords",
  .libCall none ["n_regions"] ["msdl_coords"] "len",
  .libCall none [] ["n_regions", "msdl_atlas"] "print",
  .libCall none [] ["msdl_atlas"] "image.load_img",
  .libCall none [] ["msdl_atlas"] "plotting.plot_prob_atlas",
  .importMod ["nilearn.maskers"],
  .libCall (some .buildMasker) ["masker"] ["msdl_atlas"] "maskers.NiftiMapsMasker(...).fit",
  .libCall (some .transformTS) ["roi_time_series"] ["masker", "development_dataset"] "masker.transform",
  .assignPure [] ["roi_time_series"] "roi_time_series.shape",
  .libCall none [] [] "Image",
  .importMod ["nilearn.connectome"],
  .libCall none ["correlation_measure"] [] "connectome.ConnectivityMeasure",
  .libCall (some .connectivity) ["correlation_matrix"] ["correlation_measure", "roi_time_series"] "correlation_measure.fit_transform",
  .importMod ["matplotlib.pyplot"],
  .libCall none ["correlation_matrix"] ["correlation_matrix"] "np.fill_diagonal",
  .libCall none ["fig"] [] "plt.figure",
  .libCall (some .visualizeConn) [] ["correlation_matrix", "msdl_atlas", "fig"] "plotting.plot_matrix",
  .libCall (some .visualizeConn) [] ["correlation_matrix", "msdl_atlas"] "plotting.view_connectome",
  .libCall none [] ["development_dataset"] "pd.read_table",
  .libCall (some .transformTS) ["corrected_roi_time_series"] ["masker", "development_dataset"] "masker.transform",
  .libCall (some .connectivity) ["corrected_correlation_matrix"] ["correlation_measure", "corrected_roi_time_series"] "correlation_measure.fit_transform",
  .libCall none ["corrected_correlation_matrix"] ["corrected_correlation_matrix"] "np.fill_diagonal",
  .libCall none ["fig"] [] "plt.figure",
  .libCall (some .visualizeConn) [] ["corrected_correlation_matrix", "msdl_atlas", "fig"] "plotting.plot_matrix",
  .libCall (some .visualizeConn) [] ["corrected_correlation_matrix", "msdl_atlas"] "plotting.view_connectome"
]

/-- `Notebooks/classification-example.ipynb`, code cells in order. -/
def classNb : List PyStmt := [
  .magic "matplotlib inline",
  .importMod ["numpy"],
  .importMod ["matplotlib.pyplot"],
  .importMod ["nilearn.datasets", "nilearn.maskers", "nilearn.plotting"],
  .importMod ["nilearn.connectome"],
  .libCall (some .fetch) ["development_dataset"] [] "datasets.fetch_development_fmri",
  .libCall (some .fetch) ["msdl_atlas"] [] "datasets.fetch_atlas_msdl",
  .libCall (some .buildMasker) ["masker"] ["msdl_atlas"] "maskers.MultiNiftiMapsMasker(...).fit",
  .libCall none ["correlation_measure"] [] "ConnectivityMeasure",
  .assignPure ["child_idx"] ["development_dataset"] "child_idx = phenotypic Child_Adult equals child mask",
  .libCall none ["child_func_files"] ["development_dataset", "child_idx"] "np.array",
  .libCall none ["child_confound_files"] ["development_dataset", "child_idx"] "np.array",
  .assignPure ["adult_idx"] ["development_dataset"] "adult_idx = phenotypic Child_Adult equals adult mask",
  .libCall none ["adult_func_files"] ["development_dataset", "adult_idx"] "np.array",
  .libCall none ["adult_confound_files"] ["development_dataset", "adult_idx"] "np.array",
  .libCall none [] ["child_func_files", "adult_func_files"] "print",
  .libCall (some .transformTS) ["children"] ["masker", "child_func_files", "child_confound_files"] "masker.transform",
  .libCall (some .transformTS) ["adults"] ["masker", "adult_func_files", "adult_confound_files"] "masker.transform",
  .assignPure ["pooled_subjects"] ["adults", "children"] "pooled_subjects = adults + children",
  .forLoop "p" "pooled_subjects" [
    .assertStmt "assert p.shape == (168, 39)" ["p"]
  ],
  .libCall (some .connectivity) ["correlation_matrices"] ["correlation_measure", "children"] "correlation_measure.fit_transform",
  .libCall none [] ["correlation_matrices"] "print",
  .assignPure ["mean_correlation_matrix"] ["correlation_measure"] "mean_correlation_matrix = correlation_measure.mean_",
  .libCall none [] ["mean_correlation_matrix"] "print",
  .libCall none ["axes"] [] "plt.subplots",
  .forLoop "i, (matrix, ax)" "enumerate(zip(correlation_matrices, axes))" [
    .libCall (some .visualizeConn) [] ["matrix", "ax"] "plotting.plot_matrix"
  ],
  .libCall (some .visualizeConn) [] ["mean_correlation_matrix", "msdl_atlas"] "plotting.view_connectome",
  .libCall none ["partial_correlation_measure"] [] "ConnectivityMeasure",
  .libCall (some .connectivity) ["partial_correlation_matrices"] ["partial_correlation_measure", "children"] "partial_correlation_measure.fit_transform",
  .libCall none ["axes"] [] "plt.subplots",
  .forLoop "i, (matrix, ax)" "enumerate(zip(partial_correlation_matrices, axes))" [
    .libCall (some .visualizeConn) [] ["matrix", "ax"] "plotting.plot_matrix"
  ],
  .libCall (some .visualizeConn) [] ["partial_correlation_measure"] "plotting.view_connectome",
  .libCall none ["tangent_measure"] [] "ConnectivityMeasure",
  .libCall (some .connectivity) ["tangent_matrices"] ["tangent_measure", "children"] "tangent_measure.fit_transform",
  .libCall none ["axes"] [] "plt.subplots",
  .forLoop "i, (matrix, ax)" "enumerate(zip(tangent_matrices, axes))" [
    .libCall (some .visualizeConn) [] ["matrix", "ax"] "plotting.plot_matrix"
  ],
  .importMod ["sklearn.metrics", "sklearn.model_selection", "sklearn.svm"],
  .libCall none ["groups"] ["development_dataset"] "list",
  .assignPure ["kinds"] [] "kinds = correlation, partial correlation, tangent",
  .libCall none ["classes"] ["groups"] "np.unique",
  .libCall none ["cv"] [] "StratifiedShuffleSplit",
  .libCall none ["pooled_subjects"] ["pooled_subjects"] "np.asarray",
  .assignPure ["scores"] [] "scores = empty dict",
  .forLoop "kind" "kinds" [
    .assignPure ["scores"] ["scores", "kind"] "scores of kind = empty list",
    .forLoop "train, test" "cv.split(pooled_subjects, classes)" [
      .libCall none ["connectivity"] ["kind"] "ConnectivityMeasure",
      .libCall (some .connectivity) ["connectomes"] ["connectivity", "pooled_subjects", "train"] "connectivity.fit_transform",
      .libCall (some .classify) ["classifier"] ["connectomes", "classes", "train"] "LinearSVC().fit",
      .libCall (some .connectivity) ["transformed_test"] ["connectivity", "pooled_subjects", "test"] "connectivity.transform",
      .libCall (some .classify) ["predictions"] ["classifier", "transformed_test"] "classifier.predict",
      .libCall (some .classify) ["scores"] ["scores", "classes", "test", "predictions"] "accuracy_score"
    ]
  ],
  .listComp ["mean_scores"] ["scores", "kinds"] "kinds",
  .listComp ["scores_std"] ["scores", "kinds"] "kinds",
  .libCall none [] [] "plt.figure",
  .libCall none ["positions"] ["kinds"] "np.arange",
  .libCall none [] ["positions", "mean_scores", "scores_std"] "plt.barh",
  .listComp ["yticks"] ["kinds"] "kinds",
  .libCall none [] ["positions", "yticks"] "plt.yticks",
  .libCall none [] [] "plt.gca().grid",
  .libCall none [] [] "plt.gca().set_axisbelow",
  .libCall none [] [] "plt.gca().axvline",
  .libCall none [] [] "plt.xlabel",
  .libCall none [] [] "plt.tight_layout",
  .assignPure [] ["scores_std"] "scores_std"
]

/-! ## Exception semantics

A fault model `ok : String → Bool` says, for each failure point, whether
the corresponding operation succeeds.  Failure points are: each library
call (keyed by its function name), each import (keyed by
`import <module>`), each assert (keyed by its text), and the two imports
of the guarded nilearn import.  `!pip install` is a shell magic whose
exit status Jupyter ignores, so the handler itself only fails if the
re-import fails; a failing re-import, like every failure outside the one
`try` block, propagates out of the notebook. -/

mutual

/-- Whether a statement completes without an uncaught exception under the
fault model `ok`. -/
def stmtOk (ok : String → Bool) : PyStmt → Bool
  | .magic _ => true
  | .importMod mods => mods.all (fun m => ok ("import " ++ m))
  | .helpQuery _ => true
  | .tryImportInstall m => ok ("import " ++ m) || ok ("import " ++ m ++ " retry")
  | .libCall _ _ _ fn => ok fn
  | .assignPure _ _ _ => true
  | .assertStmt key _ => ok key
  | .forLoop _ _ body => stmtsOk ok body
  | .listComp _ _ _ => true

/-- Whether a statement list completes without an uncaught exception. -/
def stmtsOk (ok : String → Bool) : List PyStmt → Bool
  | [] => true
  | s :: t => stmtOk ok s && stmtsOk ok t

end

mutual

/-- The failure points of a statement whose failure always escapes
uncaught: library calls, plain imports and asserts.  The imports of the
guarded nilearn import are excluded, since a failure of the first one is
caught. -/
def stmtKeys : PyStmt → List String
  | .magic _ => []
  | .importMod mods => mods.map (fun m => "import " ++ m)
  | .helpQuery _ => []
  | .tryImportInstall _ => []
  | .libCall _ _ _ fn => [fn]
  | .assignPure _ _ _ => []
  | .assertStmt key _ => [key]
  | .forLoop _ _ body => stmtsKeys body
  | .listComp _ _ _ => []

/-- All uncaught failure points of a statement list. -/
def stmtsKeys : List PyStmt → List String
  | [] => []
  | s :: t => stmtKeys s ++ stmtsKeys t

end

mutual

/-- The modules whose import failure the statement catches with a handler. -/
def stmtHandledImports : PyStmt → List String
  | .tryImportInstall m => [m]
  | .forLoop _ _ body => handledImports body
  | _ => []

/-- The modules whose import failure is caught by a handler. -/
def handledImports : List PyStmt → List String
  | [] => []
  | s :: t => stmtHandledImports s ++ handledImports t

end

mutual

/-- Number of `for` statements within one statement. -/
def stmtForCount : PyStmt → Nat
  | .forLoop _ _ body => 1 + forLoopCount body
  | _ => 0

/-- Number of `for` statements, loop bodies included. -/
def forLoopCount : List PyStmt → Nat
  | [] => 0
  | s :: t => stmtForCount s + forLoopCount t

end

mutual

/-- Number of list comprehensions within one statement. -/
def stmtCompCount : PyStmt → Nat
  | .forLoop _ _ body => listCompCount body
  | .listComp _ _ _ => 1
  | _ => 0

/-- Number of list comprehensions, loop bodies included. -/
def listCompCount : List PyStmt → Nat
  | [] => 0
  | s :: t => stmtCompCount s + listCompCount t

end

mutual

/-- The (loop variables, iterated expression) pairs of the `for`
statements within one statement. -/
def stmtForHeaders : PyStmt → List (String × String)
  | .forLoop v it body => (v, it) :: forLoopHeaders body
  | _ => []

/-- The (loop variables, iterated expression) pairs of all `for`
statements, in source order, loop bodies included. -/
def forLoopHeaders : List PyStmt → List (String × String)
  | [] => []
  | s :: t => stmtForHeaders s ++ forLoopHeaders t

end

mutual

/-- One statement in execution order: a loop header followed by its body. -/
def stmtFlatten : PyStmt → List PyStmt
  | .forLoop v it body => .forLoop v it body :: flattenStmts body
  | s => [s]

/-- All statements in execution order, each loop header followed by its
body. -/
def flattenStmts : List PyStmt → List PyStmt
  | [] => []
  | s :: t => stmtFlatten s ++ flattenStmts t

end

/-- Whether a statement is a single call into a library function or class
method. -/
def isSingleLibCall : PyStmt → Bool
  | .libCall _ _ _ _ => true
  | _ => false

/-- Whether a statement is a branching or error-handling construct of the
notebook code itself: the guarded import branches on an exception, and an
assert raises on a false condition. -/
def isErrorHandling : PyStmt → Bool
  | .tryImportInstall _ => true
  | .assertStmt _ _ => true
  | _ => false

/-- One-line rendering of a statement, used to state which statements a
filter selects. -/
def describeStmt : PyStmt → String
  | .magic cmd => "magic " ++ cmd
  | .importMod mods => "import " ++ String.intercalate ", " mods
  | .helpQuery t => "help " ++ t
  | .tryImportInstall m => "try import " ++ m ++ " except pip install and re-import"
  | .libCall _ _ _ fn => "call " ++ fn
  | .assignPure _ _ descr => descr
  | .assertStmt key _ => key
  | .forLoop v it _ => "for " ++ v ++ " in " ++ it
  | .listComp ws _ it => "comprehension " ++ String.intercalate ", " ws ++ " over " ++ it

mutual

/-- The pipeline stages of the library calls within one statement. -/
def stmtStageTrace : PyStmt → List Stage
  | .libCall (some s) _ _ _ => [s]
  | .forLoop _ _ body => stageTrace body
  | _ => []

/-- The pipeline stages of the library calls, in execution order. -/
def stageTrace : List PyStmt → List Stage
  | [] => []
  | s :: t => stmtStageTrace s ++ stageTrace t

end

/-- The stage that must already have happened before a given stage may
run: the masker needs fetched data, a transform needs the fitted masker,
a connectivity matrix needs extracted time series, and visualizing or
classifying needs connectivity matrices. -/
def stagePred : Stage → Option Stage
  | .fetch => none
  | .buildMasker => some .fetch
  | .transformTS => some .buildMasker
  | .connectivity => some .transformTS
  | .visualizeConn => some .connectivity
  | .classify => some .connectivity

/-- Check a stage trace: every stage other than `fetch` must be preceded,
somewhere earlier in the trace, by its prerequisite stage. -/
def stageOrderOkFrom (seen : List Stage) : List Stage → Bool
  | [] => true
  | s :: rest =>
    (match stagePred s with
     | none => true
     | some p => seen.contains p) && stageOrderOkFrom (s :: seen) rest

/-- Check a stage trace starting from nothing seen. -/
def stageOrderOk (trace : List Stage) : Bool := stageOrderOkFrom [] trace

/-! ## The fetched development dataset, concretely

`datasets.fetch_development_fmri(n_subjects=30)` is a call into the
wrapped library, so its output is modelled from its documented contract
and from facts the notebooks themselves record. -/

/-- Modelled from the contract of `fetch_development_fmri(n_subjects=30)`:
the returned phenotypic `Child_Adult` column holds 6 adults and 24
children (the classification notebook markdown records «this data set has
24 children» out of «122 children and 33 adults»), and the fetcher sorts
the selected participants by the `Child_Adult` column before returning
them, so the adults (the smaller value in the lexicographic order the
sort uses) come first, then the children. -/
def devPhenotypic : List String := List.replicate 6 "adult" ++ List.replicate 24 "child"

/-- A functional scan of the development dataset: each fetched scan has
168 time points (the classification notebook asserts
`p.shape == (168, 39)` for every extracted series); the signal values
themselves are opaque library output and are not used by any claim, so
they are modelled as zero. -/
def devScan : Scan := ⟨168, fun _ _ => 0⟩

/-- The fetched development dataset: 6 adults then 24 children, one scan
per participant, in the same order. -/
def devDataset : Dataset := ⟨devPhenotypic, List.replicate 30 devScan⟩

/-- The MSDL atlas has 39 regions (the classification notebook asserts 39
columns per extracted series); the coordinate values are opaque library
output and are not used by any claim, so they are modelled as zero. -/
def wAtlas : Atlas := ⟨List.replicate 39 ((0 : ℚ), (0 : ℚ), (0 : ℚ))⟩

/-! ## The classification loop of the classification notebook

The loop iterates over the three connectivity kinds and, inside, over the
cross-validation folds produced by
`StratifiedShuffleSplit(n_splits=15, random_state=0, test_size=5)`, and
appends `accuracy_score(classes[test], predictions)` to `scores[kind]`.
The folds and the fitted-classifier predictions are produced by the
wrapped library, so the loop is embedded as a function of them. -/

/-- `kinds`: the list of the three connectivity kind names. -/
def kindsList : List String := ["correlation", "partial correlation", "tangent"]

/-- The accuracy values appended to `scores[kind]`: one per
cross-validation fold, comparing `classes[test]` with the predictions the
fitted `LinearSVC` makes for the test subjects.  `folds` models the
(train, test) index pairs from `cv.split`, and `predict` models the
predictions of the classifier fitted inside the fold (opaque library
internals). -/
def cvScores (classes : List Nat) (folds : List (List Nat × List Nat))
    (predict : String → List Nat × List Nat → List Nat) (kind : String) : List ℚ :=
  folds.map (fun ft => accuracy_score (ft.2.map (fun i => classes.getD i 0)) (predict kind ft))

/-- The `scores` dictionary after the classification loop: one entry per
connectivity kind, holding the per-fold accuracies. -/
def notebookScores (classes : List Nat) (folds : List (List Nat × List Nat))
    (predict : String → List Nat × List Nat → List Nat) : List (String × List ℚ) :=
  kindsList.map (fun k => (k, cvScores classes folds predict k))

/-- `mean_scores = [np.mean(scores[kind]) for kind in kinds]`. -/
def notebookMeanScores (classes : List Nat) (folds : List (List Nat × List Nat))
    (predict : String → List Nat × List Nat → List Nat) : List ℚ :=
  kindsList.map (fun k => npMean (cvScores classes folds predict k))

/-- Concrete folds used to instantiate the classification-loop theorems:
15 (train, test) index pairs, as `StratifiedShuffleSplit(n_splits=15, ...)`
produces. -/
def wFolds : List (List Nat × List Nat) := List.replicate 15 ([0], [1])

/-! ## Theorems -/

theorem indicator_sum_nonneg (l : List (Nat × Nat)) :
    0 ≤ (l.map (fun p => if p.1 = p.2 then (1 : ℚ) else 0)).sum := by
  induction l with
  | nil => simp
  | cons a t ih =>
    simp only [List.map_cons, List.sum_cons]
    have : (0 : ℚ) ≤ (if a.1 = a.2 then (1 : ℚ) else 0) := by
      split <;> norm_num
    linarith

theorem indicator_sum_le_length (l : List (Nat × Nat)) :
    (l.map (fun p => if p.1 = p.2 then (1 : ℚ) else 0)).sum ≤ l.length := by
  induction l with
  | nil => simp
  | cons a t ih =>
    simp only [List.map_cons, List.sum_cons, List.length_cons]
    have : (if a.1 = a.2 then (1 : ℚ) else 0) ≤ 1 := by
      split <;> norm_num
    push_cast
    linarith

/-- Every accuracy score lies between 0 and 1. -/
theorem accuracy_score_mem_unit (yTrue yPred : List Nat) :
    0 ≤ accuracy_score yTrue yPred ∧ accuracy_score yTrue yPred ≤ 1 := by
  unfold accuracy_score
  rcases Nat.eq_zero_or_pos yTrue.length with h0 | hpos
  · rw [h0]
    simp
  · have hlen : (0 : ℚ) < yTrue.length := by exact_mod_cast hpos
    constructor
    · exact div_nonneg (indicator_sum_nonneg _) (le_of_lt hlen)
    · rw [div_le_one hlen]
      calc ((yTrue.zip yPred).map (fun p => if p.1 = p.2 then (1 : ℚ) else 0)).sum
          ≤ ((yTrue.zip yPred).length : ℚ) := indicator_sum_le_length _
        _ ≤ (yTrue.length : ℚ) := by
            have : (yTrue.zip yPred).length ≤ yTrue.length := by
              rw [List.length_zip]; exact Nat.min_le_left _ _
            exact_mod_cast this

theorem sum_le_length_of_le_one (l : List ℚ) (h : ∀ v ∈ l, v ≤ 1) :
    l.sum ≤ l.length := by
  induction l with
  | nil => simp
  | cons a t ih =>
    have ha := h a (List.mem_cons_self a t)
    have ht : t.sum ≤ t.length := ih (fun v hv => h v (List.mem_cons_of_mem a hv))
    simp only [List.sum_cons, List.length_cons]
    push_cast
    linarith

/-- The mean of a list of values in `[0, 1]` is again in `[0, 1]`. -/
theorem npMean_mem_unit (l : List ℚ) (h : ∀ v ∈ l, 0 ≤ v ∧ v ≤ 1) :
    0 ≤ npMean l ∧ npMean l ≤ 1 := by
  unfold npMean
  have hnonneg : 0 ≤ l.sum := List.sum_nonneg (fun v hv => (h v hv).1)
  have hle : l.sum ≤ l.length := sum_le_length_of_le_one l (fun v hv => (h v hv).2)
  rcases Nat.eq_zero_or_pos l.length with h0 | hpos
  · rw [h0]; simp
  · have hlen : (0 : ℚ) < l.length := by exact_mod_cast hpos
    exact ⟨div_nonneg hnonneg (le_of_lt hlen), by rw [div_le_one hlen]; exact hle⟩

theorem mem_insertSorted (a x : String) (l : List String) :
    x ∈ insertSorted a l ↔ x = a ∨ x ∈ l := by
  induction l with
  | nil => simp [insertSorted]
  | cons b t ih =>
    unfold insertSorted
    by_cases h : strLeB a b
    · rw [if_pos h]
      simp
    · rw [if_neg h]
      simp only [List.mem_cons, ih]
      tauto

theorem mem_sortStr (x : String) (l : List String) :
    x ∈ sortStr l ↔ x ∈ l := by
  induction l with
  | nil => simp [sortStr]
  | cons b t ih =>
    simp only [sortStr, List.foldr_cons, mem_insertSorted, List.mem_cons]
    rw [show t.foldr insertSorted [] = sortStr t from rfl] at *
    tauto

theorem mem_npUniqueVals (x : String) (l : List String) :
    x ∈ npUniqueVals l ↔ x ∈ l := by
  unfold npUniqueVals
  rw [List.mem_dedup, mem_sortStr]

theorem nodup_npUniqueVals (l : List String) : (npUniqueVals l).Nodup :=
  List.nodup_dedup _

theorem maskerTransform_length (atlas : Atlas) (s : Scan) :
    (maskerTransform atlas s).length = s.n_timepoints := by
  simp [maskerTransform]

theorem maskerTransform_row_length (atlas : Atlas) (s : Scan) :
    ∀ row ∈ maskerTransform atlas s, row.length = atlas.n_regions := by
  intro row hrow
  unfold maskerTransform at hrow
  rcases List.mem_map.mp hrow with ⟨t, _, rfl⟩
  simp

theorem connectivityMatrix_length (X : List (List ℚ)) :
    (connectivityMatrix X).length = n_features X := by
  simp [connectivityMatrix]

theorem connectivityMatrix_row_length (X : List (List ℚ)) :
    ∀ row ∈ connectivityMatrix X, row.length = n_features X := by
  intro row hrow
  unfold connectivityMatrix at hrow
  rcases List.mem_map.mp hrow with ⟨i, _, rfl⟩
  simp

theorem n_features_maskerTransform (atlas : Atlas) (s : Scan)
    (h : 0 < s.n_timepoints) :
    n_features (maskerTransform atlas s) = atlas.n_regions := by
  unfold n_features maskerTransform
  cases hn : s.n_timepoints with
  | zero => omega
  | succ m => simp [List.range_succ_eq_map]

theorem fill_diagonal_from_getD (M : List (List ℚ)) :
    ∀ k i, (fill_diagonal_from k M).getD i [] = (M.getD i []).set (k + i) 0 := by
  induction M with
  | nil => intro k i; simp [fill_diagonal_from]
  | cons r t ih =>
    intro k i
    cases i with
    | zero => simp [fill_diagonal_from]
    | succ m =>
      simp only [fill_diagonal_from, List.getD_cons_succ]
      rw [ih (k + 1) m]
      congr 1
      omega

theorem getD_set_q (l : List ℚ) : ∀ (i j : Nat) (v : ℚ),
    (l.set i v).getD j 0 = if j = i ∧ i < l.length then v else l.getD j 0 := by
  induction l with
  | nil => intro i j v; simp
  | cons a t ih =>
    intro i j v
    cases i with
    | zero =>
      cases j with
      | zero => simp
      | succ m => simp
    | succ n =>
      cases j with
      | zero => simp
      | succ m =>
        simp only [List.set_cons_succ, List.getD_cons_succ, List.length_cons]
        rw [ih n m v]
        by_cases h : m = n ∧ n < t.length
        · rw [if_pos h, if_pos ⟨by omega, by omega⟩]
        · rw [if_neg h, if_neg (by omega)]

theorem fill_diagonal_from_length (M : List (List ℚ)) :
    ∀ k, (fill_diagonal_from k M).length = M.length := by
  induction M with
  | nil => intro k; rfl
  | cons r t ih =>
    intro k
    simp only [fill_diagonal_from, List.length_cons, ih]

theorem intro_correlation_matrix_eq (ts : List (List ℚ)) :
    intro_correlation_matrix ts = connectivityMatrix ts := rfl

/-- C1: the classification loop produces, for each of the three
connectivity kinds, a list of accuracy scores (one per fold), every
accuracy value appended to `scores[kind]` lies between 0 and 1 inclusive,
and so does every per-kind mean in `mean_scores`. -/
theorem C1_accuracy_scores_bounded (classes : List Nat)
    (folds : List (List Nat × List Nat))
    (predict : String → List Nat × List Nat → List Nat)
    (hfolds : folds.length = 15) :
    (notebookScores classes folds predict).length = 3
    ∧ (∀ pr ∈ notebookScores classes folds predict,
        pr.2.length = 15 ∧ ∀ v ∈ pr.2, 0 ≤ v ∧ v ≤ 1)
    ∧ (notebookMeanScores classes folds predict).length = 3
    ∧ ∀ m ∈ notebookMeanScores classes folds predict, 0 ≤ m ∧ m ≤ 1 := by
  have hbound : ∀ k, ∀ v ∈ cvScores classes folds predict k, 0 ≤ v ∧ v ≤ 1 := by
    intro k v hv
    rcases List.mem_map.mp hv with ⟨ft, _, rfl⟩
    exact accuracy_score_mem_unit _ _
  refine ⟨by simp [notebookScores, kindsList], ?_,
    by simp [notebookMeanScores, kindsList], ?_⟩
  · intro pr hpr
    rcases List.mem_map.mp hpr with ⟨k, hk, rfl⟩
    exact ⟨by simp [cvScores, hfolds], hbound k⟩
  · intro m hm
    rcases List.mem_map.mp hm with ⟨k, hk, rfl⟩
    exact npMean_mem_unit _ (hbound k)

/-- Witness for C1 at a concrete instance: 15 folds, two subjects, a
constant classifier. -/
theorem C1_witness :
    wFolds.length = 15
    ∧ ((notebookScores [0, 1] wFolds (fun _ _ => [0])).length = 3
       ∧ (∀ pr ∈ notebookScores [0, 1] wFolds (fun _ _ => [0]),
           pr.2.length = 15 ∧ ∀ v ∈ pr.2, 0 ≤ v ∧ v ≤ 1)
       ∧ (notebookMeanScores [0, 1] wFolds (fun _ _ => [0])).length = 3
       ∧ ∀ m ∈ notebookMeanScores [0, 1] wFolds (fun _ _ => [0]), 0 ≤ m ∧ m ≤ 1) :=
  ⟨by decide, C1_accuracy_scores_bounded [0, 1] wFolds (fun _ _ => [0]) (by decide)⟩

/-- C2: run top to bottom with every library call succeeding, the intro
notebook completes without an uncaught exception, and the connectivity
matrix `correlation_measure.fit_transform([roi_time_series])[0]` is square
with dimension `n_regions = len(msdl_atlas.region_coords)`. -/
theorem C2_intro_pipeline (atlas : Atlas) (s : Scan) (h : 0 < s.n_timepoints) :
    stmtsOk (fun _ => true) introNb = true
    ∧ (intro_correlation_matrix (maskerTransform atlas s)).length = atlas.n_regions
    ∧ ∀ row ∈ intro_correlation_matrix (maskerTransform atlas s),
        row.length = atlas.n_regions := by
  refine ⟨by decide, ?_, ?_⟩
  · rw [intro_correlation_matrix_eq, connectivityMatrix_length,
      n_features_maskerTransform atlas s h]
  · intro row hrow
    rw [intro_correlation_matrix_eq] at hrow
    rw [connectivityMatrix_row_length _ row hrow, n_features_maskerTransform atlas s h]

/-- Witness for C2 at the modelled MSDL atlas (39 regions) and a 168-time
point scan. -/
theorem C2_witness :
    0 < devScan.n_timepoints
    ∧ (stmtsOk (fun _ => true) introNb = true
       ∧ (intro_correlation_matrix (maskerTransform wAtlas devScan)).length = wAtlas.n_regions
       ∧ ∀ row ∈ intro_correlation_matrix (maskerTransform wAtlas devScan),
           row.length = wAtlas.n_regions) :=
  ⟨by decide, C2_intro_pipeline wAtlas devScan (by decide)⟩

/-- C3: at the fetched dataset (the fetcher sorts the returned
participants by `Child_Adult`, so the 6 adults come before the 24
children), building `pooled_subjects = adults + children` reproduces the
phenotypic order exactly, so for every index i the class value
`classes[i]` (decoded through the sorted distinct values of `np.unique`,
class 0 = adult, class 1 = child) names precisely the age group of the
participant whose extracted time series is the pooled row i: the feature
rows and the label vector are correctly paired. -/
theorem C3_labels_aligned :
    pooledGroups devDataset = groupsOf devDataset
    ∧ npUniqueVals (groupsOf devDataset) = ["adult", "child"]
    ∧ (classesOf devDataset).length = (pooled_subjects wAtlas devDataset).length
    ∧ ∀ i < 30,
        (npUniqueVals (groupsOf devDataset)).getD ((classesOf devDataset).getD i 99) ""
          = (pooledGroups devDataset).getD i "" := by
  refine ⟨by decide, by decide, by decide, by decide⟩

/-- C4: the only exception the notebooks catch is a failure of
`import nilearn` (handled by a pip install and a re-import); with
that import failing and everything else succeeding the intro notebook still
completes, while the failure of any single other call, import or assert
in either notebook propagates out of the run. -/
theorem C4_only_nilearn_import_guarded :
    handledImports introNb = ["nilearn"]
    ∧ handledImports classNb = []
    ∧ stmtsOk (fun k => !(k == "import nilearn")) introNb = true
    ∧ (∀ k ∈ stmtsKeys introNb, stmtsOk (fun j => !(j == k)) introNb = false)
    ∧ (∀ k ∈ stmtsKeys classNb, stmtsOk (fun j => !(j == k)) classNb = false) := by
  refine ⟨by decide, by decide, by decide, by decide, by decide⟩

/-- C5 counterexample: not every operation performed by the notebooks is a
single call into a pre-existing library function or class method; the
guarded nilearn import is branching error handling, the assert loop is an
error check, and plain assignments such as
`pooled_subjects = adults + children` are no library calls. -/
theorem C5_counterexample :
    ((flattenStmts introNb ++ flattenStmts classNb).all isSingleLibCall) = false := by
  decide

/-- C5 amended: every operation performed by the notebooks is a single
call into a pre-existing library function or class method, except for the
explicitly listed non-call statements (notebook magics, imports, a help
query, plain assignments and attribute accesses, the loops and
comprehensions, the guarded nilearn import and the shape assert); the
branching / custom error-handling constructs among them are exactly the
guarded nilearn import and the per-subject shape assert. -/
theorem C5_amended_operations :
    ((flattenStmts introNb).filter (fun s => !(isSingleLibCall s))).map describeStmt
      = ["magic matplotlib inline",
         "try import nilearn except pip install and re-import",
         "nilearn.__version__",
         "import nilearn.datasets",
         "import nilearn.plotting",
         "import nilearn.datasets",
         "mni_template_3mm",
         "import nilearn.image",
         "help image.smooth_img",
         "smooth_anat_img.shape",
         "import pandas",
         "import nilearn.datasets",
         "import nilearn.image",
         "img.shape",
         "import nilearn.plotting",
         "import IPython.display",
         "import numpy",
         "msdl_coords = msdl_atlas.region_coords",
         "import nilearn.maskers",
         "roi_time_series.shape",
         "import nilearn.connectome",
         "import matplotlib.pyplot"]
    ∧ ((flattenStmts classNb).filter (fun s => !(isSingleLibCall s))).map describeStmt
      = ["magic matplotlib inline",
         "import numpy",
         "import matplotlib.pyplot",
         "import nilearn.datasets, nilearn.maskers, nilearn.plotting",
         "import nilearn.connectome",
         "child_idx = phenotypic Child_Adult equals child mask",
         "adult_idx = phenotypic Child_Adult equals adult mask",
         "pooled_subjects = adults + children",
         "for p in pooled_subjects",
         "assert p.shape == (168, 39)",
         "mean_correlation_matrix = correlation_measure.mean_",
         "for i, (matrix, ax) in enumerate(zip(correlation_matrices, axes))",
         "for i, (matrix, ax) in enumerate(zip(partial_correlation_matrices, axes))",
         "for i, (matrix, ax) in enumerate(zip(tangent_matrices, axes))",
         "import sklearn.metrics, sklearn.model_selection, sklearn.svm",
         "kinds = correlation, partial correlation, tangent",
         "scores = empty dict",
         "for kind in kinds",
         "scores of kind = empty list",
         "for train, test in cv.split(pooled_subjects, classes)",
         "comprehension mean_scores over kinds",
         "comprehension scores_std over kinds",
         "comprehension yticks over kinds",
         "scores_std"]
    ∧ ((flattenStmts introNb ++ flattenStmts classNb).filter isErrorHandling).map describeStmt
      = ["try import nilearn except pip install and re-import",
         "assert p.shape == (168, 39)"] := by
  refine ⟨by decide, by decide, by decide⟩

/-- C6 counterexample: the notebooks do not contain exactly two for-loops;
they contain six for statements (and three list comprehensions besides). -/
theorem C6_counterexample :
    forLoopCount introNb + forLoopCount classNb ≠ 2 := by
  decide

/-- C6 amended: the intro notebook has no loop; the classification
notebook has six for statements — the per-subject assert loop, three
plotting loops, the loop over the three connectivity kinds with the loop
over cross-validation folds nested inside it — plus three list
comprehensions. -/
theorem C6_amended_loops :
    forLoopCount introNb = 0
    ∧ listCompCount introNb = 0
    ∧ forLoopCount classNb = 6
    ∧ listCompCount classNb = 3
    ∧ forLoopHeaders classNb
      = [("p", "pooled_subjects"),
         ("i, (matrix, ax)", "enumerate(zip(correlation_matrices, axes))"),
         ("i, (matrix, ax)", "enumerate(zip(partial_correlation_matrices, axes))"),
         ("i, (matrix, ax)", "enumerate(zip(tangent_matrices, axes))"),
         ("kind", "kinds"),
         ("train, test", "cv.split(pooled_subjects, classes)")] := by
  refine ⟨by decide, by decide, by decide, by decide, by decide⟩

/-- C7: in each notebook the pipeline calls occur in dependency order —
every masker build follows a data fetch, every transform into per-region
time series follows the masker build and fit, every connectivity
computation follows the production of time series, and every connectivity
visualization or classification step follows a connectivity computation —
so no pipeline stage ever runs before its prerequisite stage has run. -/
theorem C7_pipeline_stage_order :
    stageTrace introNb
      = [.fetch, .fetch, .buildMasker, .transformTS, .connectivity,
         .visualizeConn, .visualizeConn, .transformTS, .connectivity,
         .visualizeConn, .visualizeConn]
    ∧ stageTrace classNb
      = [.fetch, .fetch, .buildMasker, .transformTS, .transformTS,
         .connectivity, .visualizeConn, .visualizeConn, .connectivity,
         .visualizeConn, .visualizeConn, .connectivity, .visualizeConn,
         .connectivity, .classify, .connectivity, .classify, .classify]
    ∧ stageOrderOk (stageTrace introNb) = true
    ∧ stageOrderOk (stageTrace classNb) = true := by
  refine ⟨by decide, by decide, by decide, by decide⟩

/-- C8: when the groups list holds only the values child and adult and
both occur, `np.unique(groups, return_inverse=True)` yields exactly two
distinct classes and every entry of the inverse (the classes vector
passed to the classifier) is 0 or 1. -/
theorem C8_two_classes (l : List String)
    (hsub : ∀ x ∈ l, x = "child" ∨ x = "adult")
    (hc : "child" ∈ l) (ha : "adult" ∈ l) :
    (npUniqueVals l).length = 2 ∧ ∀ v ∈ npUniqueInv l, v = 0 ∨ v = 1 := by
  have hmem : ∀ x, x ∈ npUniqueVals l ↔ x ∈ l := fun x => mem_npUniqueVals x l
  have hfin : (npUniqueVals l).toFinset = ({"adult", "child"} : Finset String) := by
    ext x
    simp only [List.mem_toFinset, Finset.mem_insert, Finset.mem_singleton, hmem]
    constructor
    · intro hx
      rcases hsub x hx with h | h
      · right; exact h
      · left; exact h
    · intro hx
      rcases hx with rfl | rfl
      · exact ha
      · exact hc
  have hlen : (npUniqueVals l).length = 2 := by
    have hcard := List.toFinset_card_of_nodup (nodup_npUniqueVals l)
    rw [hfin] at hcard
    have h2 : ({"adult", "child"} : Finset String).card = 2 := by decide
    omega
  refine ⟨hlen, ?_⟩
  intro v hv
  unfold npUniqueInv at hv
  rcases List.mem_map.mp hv with ⟨x, hx, rfl⟩
  have hxv : x ∈ npUniqueVals l := (hmem x).mpr hx
  have hlt := List.indexOf_lt_length.mpr hxv
  omega

/-- Witness for C8 at the fetched groups list (24 children, 6 adults). -/
theorem C8_witness :
    (∀ x ∈ groupsOf devDataset, x = "child" ∨ x = "adult")
    ∧ ((npUniqueVals (groupsOf devDataset)).length = 2
       ∧ ∀ v ∈ npUniqueInv (groupsOf devDataset), v = 0 ∨ v = 1) :=
  ⟨by decide, C8_two_classes (groupsOf devDataset) (by decide) (by decide) (by decide)⟩

/-- C9: when every fetched scan has 168 time points and the atlas defines
39 regions, every element of `pooled_subjects` (the transforms of all
adult and child scans) has shape 168 by 39, so the assert loop never
fails. -/
theorem C9_extracted_shapes (atlas : Atlas) (d : Dataset)
    (hts : ∀ s ∈ d.func, s.n_timepoints = 168)
    (hreg : atlas.n_regions = 39) :
    ∀ p ∈ pooled_subjects atlas d, p.length = 168 ∧ ∀ row ∈ p, row.length = 39 := by
  intro p hp
  unfold pooled_subjects at hp
  rcases List.mem_map.mp hp with ⟨pr, hpr, rfl⟩
  have hfunc : pr.2 ∈ d.func := by
    unfold pooledPairs at hpr
    rcases List.mem_append.mp hpr with h | h <;>
      exact (List.of_mem_zip (List.mem_of_mem_filter h)).2
  constructor
  · rw [maskerTransform_length, hts pr.2 hfunc]
  · intro row hrow
    rw [maskerTransform_row_length atlas pr.2 row hrow, hreg]

/-- Witness for C9 at the modelled fetched dataset and MSDL atlas. -/
theorem C9_witness :
    (∀ s ∈ devDataset.func, s.n_timepoints = 168)
    ∧ wAtlas.n_regions = 39
    ∧ ∀ p ∈ pooled_subjects wAtlas devDataset,
        p.length = 168 ∧ ∀ row ∈ p, row.length = 39 :=
  ⟨fun s hs => by rw [List.eq_of_mem_replicate hs]; rfl,
   by decide,
   C9_extracted_shapes wAtlas devDataset
     (fun s hs => by rw [List.eq_of_mem_replicate hs]; rfl) (by decide)⟩

/-- C10: `np.fill_diagonal(correlation_matrix, 0)` zeroes every diagonal
entry and leaves every off-diagonal entry unchanged (and preserves the
row lengths), and the subsequent `plotting.plot_matrix` and
`plotting.view_connectome` calls receive exactly this mutated
zero-diagonal matrix, not the original `fit_transform` output. -/
theorem C10_fill_diagonal_semantics (ts : List (List ℚ)) (i j : Nat)
    (hj : j < ((intro_correlation_matrix ts).getD i []).length) :
    (((intro_filled_matrix ts).getD i []).getD j 0
      = if j = i then 0 else ((intro_correlation_matrix ts).getD i []).getD j 0)
    ∧ ((intro_filled_matrix ts).getD i []).length
      = ((intro_correlation_matrix ts).getD i []).length
    ∧ intro_plot_matrix_arg ts = intro_filled_matrix ts
    ∧ intro_view_connectome_arg ts = intro_filled_matrix ts := by
  refine ⟨?_, ?_, rfl, rfl⟩
  · unfold intro_filled_matrix np_fill_diagonal
    rw [fill_diagonal_from_getD, Nat.zero_add, getD_set_q]
    by_cases hij : j = i
    · rw [if_pos ⟨hij, by omega⟩, if_pos hij]
    · rw [if_neg (by tauto), if_neg hij]
  · unfold intro_filled_matrix np_fill_diagonal
    rw [fill_diagonal_from_getD, Nat.zero_add, List.length_set]

/-- Witness for C10 at a concrete two-by-two connectivity matrix, at the
off-diagonal entry (0, 1). -/
theorem C10_witness :
    1 < ((intro_correlation_matrix ([[1, 2], [3, 4]] : List (List ℚ))).getD 0 []).length
    ∧ ((((intro_filled_matrix ([[1, 2], [3, 4]] : List (List ℚ))).getD 0 []).getD 1 0
        = if 1 = 0 then 0
          else ((intro_correlation_matrix ([[1, 2], [3, 4]] : List (List ℚ))).getD 0 []).getD 1 0)
       ∧ ((intro_filled_matrix ([[1, 2], [3, 4]] : List (List ℚ))).getD 0 []).length
         = ((intro_correlation_matrix ([[1, 2], [3, 4]] : List (List ℚ))).getD 0 []).length
       ∧ intro_plot_matrix_arg ([[1, 2], [3, 4]] : List (List ℚ))
         = intro_filled_matrix ([[1, 2], [3, 4]] : List (List ℚ))
       ∧ intro_view_connectome_arg ([[1, 2], [3, 4]] : List (List ℚ))
         = intro_filled_matrix ([[1, 2], [3, 4]] : List (List ℚ))) :=
  ⟨by decide, C10_fill_diagonal_semantics ([[1, 2], [3, 4]] : List (List ℚ)) 0 1 (by decide)⟩

end Workshop
